import Mathlib

set_option autoImplicit false

/-!
Verification of the `arff_utils` in-memory data model and its transformation
algorithms (`ARFF.read` missing-value normalization, `append`, `merge`,
`sort_by`, `index_of`, `contains`, `is_nominal`) against their
natural-language specification.  The Python data dictionary
`{'relation', 'attributes', 'data', 'description'}` is embedded as the
`Dataset` structure below; every operation is translated as a pure function
(stateful mutation of an argument is made explicit by returning the final
state of that argument alongside the result, and fallible operations return
`Except Err`).
-/

namespace ArffUtils

/-- Cell of a data row: the missing sentinel (Python `None`), a numeric
value, or a string value. -/
inductive Cell where
  | missing : Cell
  | num : Int → Cell
  | str : String → Cell
deriving DecidableEq

/-- Type field of an ARFF attribute as stored by the source: either a plain
type keyword string (for example "NUMERIC"), or the explicit ordered list of
nominal category labels (the source checks `type(attribute[1]) is list` to
recognize nominal attributes). -/
inductive AttrType where
  | simple : String → AttrType
  | nominal : List String → AttrType
deriving DecidableEq

/-- An attribute is a `(name, type)` pair, as in the source's
`data['attributes']` entries. -/
abbrev Attribute := String × AttrType

/-- A row is the list of its cells. -/
abbrev Row := List Cell

/-- The ARFF data dictionary: `relation`, `attributes`, `data` (rows), and
`description`.  Every dictionary produced or consumed by the source carries
all four keys. -/
structure Dataset where
  relation : String
  attributes : List Attribute
  data : List Row
  description : String
deriving DecidableEq

/-- Errors raised by the source (each constructor corresponds to one
`raise RuntimeError(...)` site or to a Python builtin exception site). -/
inductive Err where
  | invalidMissingType : Err
  | mismatchingRelations : Err
  | mismatchNumAttributes : Err
  | mismatchingNames : Nat → String → String → Err
  | mismatchingNominalValues : Nat → Nat → String → String → Err
  | mismatchingTypes : AttrType → AttrType → Err
  | attributeMissingFromData1 : String → Err
  | attributeMissingFromData2 : String → Err
  | attributeAlreadyExists : String → Err
  | keyError : Cell → Err
  | attributeNotFound : Err
  | indexOutOfRange : Err
deriving DecidableEq

/-- Helper for `index_of`: scan the attribute list, returning the index of
the first attribute with the given name (counting from `i`), or `-1`. -/
def indexOfFrom (attrs : List Attribute) (attr : String) (i : Nat) : Int :=
  match attrs with
  | [] => -1
  | a :: rest => if a.1 = attr then (i : Int) else indexOfFrom rest attr (i + 1)

/-- `ARFF.index_of`: index of the given attribute name, or `-1` if absent
(the source loops over `data['attributes']` in order and returns the first
hit). -/
def index_of (data : Dataset) (attr : String) : Int :=
  indexOfFrom data.attributes attr 0

/-- `ARFF.contains`: `index_of(data, attribute) > -1`. -/
def contains (data : Dataset) (attr : String) : Bool :=
  index_of data attr > -1

/-- `ARFF.is_nominal`: raises when the attribute is absent, otherwise
reports whether its type field is a list. -/
def is_nominal (data : Dataset) (attr : String) : Except Err Bool :=
  let i := index_of data attr
  if i < 0 then
    .error .attributeNotFound
  else
    match data.attributes.get? i.toNat with
    | some a =>
      match a.2 with
      | .nominal _ => .ok true
      | .simple _ => .ok false
    | none => .error .indexOutOfRange

/-- Cell extraction `row[i]` as used by `merge` and `sort_by`.  The source
indexes only at positions that exist in a well-formed dataset; out-of-range
access is given the missing sentinel here. -/
def rowKey (i : Nat) (r : Row) : Cell :=
  r.getD i Cell.missing

/-- Python's ordering on the cell values that occur in rows (Python 2
semantics, as the source uses `unicode`): `None` sorts below numbers, which
sort below strings; numbers by numeric order, strings lexicographically. -/
def cellLe : Cell → Cell → Bool := fun a b =>
  match a, b with
  | .missing, _ => true
  | .num _, .missing => false
  | .num x, .num y => decide (x ≤ y)
  | .num _, .str _ => true
  | .str _, .missing => false
  | .str _, .num _ => false
  | .str s, .str t => decide (s ≤ t)

/-- `ARFF.sort_by`: raises when the attribute is absent, otherwise stably
sorts the rows in place, ascending by the cell at the attribute's index
(`data['data'].sort(key=lambda tup: tup[i])`).  Python's `list.sort` is a
stable ascending sort, embedded as `List.mergeSort`. -/
def sort_by (data : Dataset) (attr : String) : Except Err Dataset :=
  let i := index_of data attr
  if i < 0 then
    .error .attributeNotFound
  else
    .ok { data with
          data := data.data.mergeSort
            (fun r s => cellLe (rowKey i.toNat r) (rowKey i.toNat s)) }

/-- Warning diagnostics emitted by `append` (the source prints a warning
when the two descriptions differ and keeps the first). -/
def descriptionWarnings (data1 data2 : Dataset) : List String :=
  if data1.description = data2.description then []
  else ["WARNING: mismatching descriptions, taking data1"]

/-- Inner loop of `append`'s attribute comparison for two nominal domains:
`for j in range(len(attribute1[1]))`, comparing `attribute1[1][j]` with
`attribute2[1][j]`.  When the first domain is longer than the second, the
access `attribute2[1][j]` is out of range. -/
def checkNominalValues (i : Nat) : List String → List String → Nat → Except Err Unit
  | [], _, _ => .ok ()
  | _ :: _, [], _ => .error .indexOutOfRange
  | v1 :: r1, v2 :: r2, j =>
    if v1 = v2 then checkNominalValues i r1 r2 (j + 1)
    else .error (.mismatchingNominalValues i j v1 v2)

/-- Attribute comparison loop of `append`: names must match; when both type
fields are lists the nominal-value loop runs; otherwise the type fields are
compared for equality. -/
def checkAttributePairs : List Attribute → List Attribute → Nat → Except Err Unit
  | [], _, _ => .ok ()
  | _ :: _, [], _ => .error .indexOutOfRange
  | a1 :: r1, a2 :: r2, i =>
    if a1.1 = a2.1 then
      match a1.2, a2.2 with
      | .nominal d1, .nominal d2 =>
        match checkNominalValues i d1 d2 0 with
        | .ok _ => checkAttributePairs r1 r2 (i + 1)
        | .error e => .error e
      | t1, t2 =>
        if t1 = t2 then checkAttributePairs r1 r2 (i + 1)
        else .error (.mismatchingTypes t1 t2)
    else .error (.mismatchingNames i a1.1 a2.1)

/-- `ARFF.append`: checks relations, attribute counts and the attribute
pairs, then returns the dictionary with the rows of `data1` followed by the
rows of `data2`.  The warning list carries the non-fatal
mismatching-descriptions diagnostic. -/
def append (data1 data2 : Dataset) : Except Err (Dataset × List String) :=
  let warnings := descriptionWarnings data1 data2
  let description := data1.description
  if data1.relation = data2.relation then
    if data1.attributes.length = data2.attributes.length then
      match checkAttributePairs data1.attributes data2.attributes 0 with
      | .ok _ =>
        .ok ({ relation := data1.relation
               attributes := data1.attributes
               data := data1.data ++ data2.data
               description := description }, warnings)
      | .error e => .error e
    else .error .mismatchNumAttributes
  else .error .mismatchingRelations

/-- Lookup table built by `merge`: `data2_lookup[row[join_idx2]] = row` for
each row of `data2` in order.  The Python dict is embedded as an association
list where later insertions are consed to the front, so that the front-most
binding for a key is the one written last. -/
def data2Lookup (rows : List Row) (joinIdx : Nat) : List (Cell × Row) :=
  rows.foldl (fun m r => (rowKey joinIdx r, r) :: m) []

/-- Dict access `m[k]`: the binding written last (front-most). -/
def lookupRow (m : List (Cell × Row)) (k : Cell) : Option Row :=
  match m with
  | [] => none
  | (k2, r) :: rest => if k2 = k then some r else lookupRow rest k

/-- Row-extension loop of `merge`: each row of `data1` is looked up by its
join-key cell; a missing key raises (Python `KeyError`), otherwise the
selected cells of the found `data2` row are appended to the row. -/
def extendRows (lk : List (Cell × Row)) (joinIdx1 : Nat) (attrIdxs : List Nat) :
    List Row → Except Err (List Row)
  | [] => .ok []
  | r :: rest =>
    match lookupRow lk (rowKey joinIdx1 r) with
    | none => .error (.keyError (rowKey joinIdx1 r))
    | some r2 =>
      match extendRows lk joinIdx1 attrIdxs rest with
      | .ok rs => .ok ((r ++ attrIdxs.map (fun j => r2.getD j Cell.missing)) :: rs)
      | .error e => .error e

/-- `ARFF.merge`: key join pulling the named `data2` columns into `data1`.
The source mutates `data1` in place (it appends the selected attributes to
`data1['attributes']` and appends cells to the rows of `data1['data']`), so
the embedding returns, on success, the triple
`(result, final state of data1, final state of data2)`. -/
def merge (data1 data2 : Dataset) (join_by : String) (attrs : List String) :
    Except Err (Dataset × Dataset × Dataset) :=
  if contains data1 join_by then
    if contains data2 join_by then
      match attrs.find? (fun a => !(contains data2 a)) with
      | some a => .error (.attributeMissingFromData2 a)
      | none =>
        match attrs.find? (fun a => contains data1 a) with
        | some a => .error (.attributeAlreadyExists a)
        | none =>
          let join_idx1 := (index_of data1 join_by).toNat
          let join_idx2 := (index_of data2 join_by).toNat
          let lk := data2Lookup data2.data join_idx2
          let attrIdxs := attrs.map (fun a => (index_of data2 a).toNat)
          let attributes_extended := data1.attributes ++
            attrIdxs.map (fun i => data2.attributes.getD i ("", AttrType.simple ""))
          match extendRows lk join_idx1 attrIdxs data1.data with
          | .error e => .error e
          | .ok rows =>
            .ok ({ relation := data1.relation
                   attributes := attributes_extended
                   data := rows
                   description := "" },
                 { relation := data1.relation
                   attributes := attributes_extended
                   data := rows
                   description := data1.description },
                 data2)
    else .error (.attributeMissingFromData2 join_by)
  else .error (.attributeMissingFromData1 join_by)

/-- The `missing` parameter of `ARFF.read`: Python `None`, a single string,
a list of strings, or a value of any other type (for example a dict). -/
inductive MissingSpec where
  | noSpec : MissingSpec
  | strSpec : String → MissingSpec
  | listSpec : List String → MissingSpec
  | otherSpec : MissingSpec
deriving DecidableEq

/-- Per-cell body of `read`'s normalization loop: a string-typed `missing`
compares the cell against it; a list-typed `missing` runs the inner token
loop; any other type raises.  The type test happens inside the loop, per
cell. -/
def normalizeCell (missing : MissingSpec) (c : Cell) : Except Err Cell :=
  match missing with
  | .strSpec s => .ok (if c = Cell.str s then Cell.missing else c)
  | .listSpec l =>
    .ok (l.foldl (fun c2 m => if c2 = Cell.str m then Cell.missing else c2) c)
  | .otherSpec => .error .invalidMissingType
  | .noSpec => .ok c

/-- Inner loop of `read` over the cells of one row. -/
def normalizeRow (missing : MissingSpec) : List Cell → Except Err (List Cell)
  | [] => .ok []
  | c :: rest =>
    match normalizeCell missing c with
    | .error e => .error e
    | .ok c2 =>
      match normalizeRow missing rest with
      | .error e => .error e
      | .ok cs => .ok (c2 :: cs)

/-- Outer loop of `read` over the rows. -/
def normalizeRows (missing : MissingSpec) : List Row → Except Err (List Row)
  | [] => .ok []
  | r :: rest =>
    match normalizeRow missing r with
    | .error e => .error e
    | .ok r2 =>
      match normalizeRows missing rest with
      | .error e => .error e
      | .ok rs => .ok (r2 :: rs)

/-- Missing-value normalization pass of `ARFF.read`, applied to the parsed
table: skipped entirely when `missing` is `None`, otherwise the nested loop
over all cells runs. -/
def readNormalize (data : Dataset) (missing : MissingSpec) : Except Err Dataset :=
  match missing with
  | .noSpec => .ok data
  | m =>
    match normalizeRows m data.data with
    | .ok rows => .ok { data with data := rows }
    | .error e => .error e

/-- Modelled from the spec: the repository source under src/ contains no
dummy-encode (categorical one-of-k recode) implementation, so this
definition follows the spec's contract for
`dummyEncode(dataset, attributeName) -> (Dataset, domain)`: a non-NOMINAL
attribute is a documented no-op returning the dataset unchanged with an
empty domain; a NOMINAL attribute's column is replaced, at the same
position, by one NUMERIC column per domain label, each row getting `1` in
the column named by its original cell value and `0` elsewhere. -/
def dummyEncode (data : Dataset) (attr : String) : Dataset × List String :=
  let i := index_of data attr
  if i < 0 then (data, [])
  else
    match data.attributes.get? i.toNat with
    | some (_, AttrType.nominal dom) =>
      ({ data with
         attributes := data.attributes.take i.toNat ++
           dom.map (fun v => (v, AttrType.simple "NUMERIC")) ++
           data.attributes.drop (i.toNat + 1)
         data := data.data.map (fun r =>
           r.take i.toNat ++
           dom.map (fun v =>
             if r.getD i.toNat Cell.missing = Cell.str v then Cell.num 1 else Cell.num 0) ++
           r.drop (i.toNat + 1)) },
       dom)
    | _ => (data, [])

/-- Numeric value of a cell, for summing the dummy-encoded columns. -/
def cellNumVal : Cell → Int
  | Cell.num x => x
  | _ => 0

/-- Last row of `rows` whose join-key cell equals `k` (row order). -/
def lastMatchRow (rows : List Row) (joinIdx : Nat) (k : Cell) : Option Row :=
  match rows with
  | [] => none
  | r :: rest =>
    match lastMatchRow rest joinIdx k with
    | some r2 => some r2
    | none => if rowKey joinIdx r = k then some r else none

/-- Position-wise attribute compatibility actually enforced by `append`:
equal names, and for two nominal attributes the comparison only covers the
first domain's positions (the second domain restricted to the first's
length must equal the first), otherwise equal type fields. -/
def attrCompatible (a1 a2 : Attribute) : Prop :=
  a1.1 = a2.1 ∧
  match a1.2, a2.2 with
  | AttrType.nominal d1, AttrType.nominal d2 => d2.take d1.length = d1
  | t1, t2 => t1 = t2

/-! ### Lookup helpers: `index_of` and `contains` -/

theorem indexOfFrom_spec (attr : String) :
    ∀ (attrs : List Attribute) (i : Nat),
      (indexOfFrom attrs attr i = -1 ∧ ∀ a ∈ attrs, a.1 ≠ attr) ∨
      (∃ k : Nat, indexOfFrom attrs attr i = ((i + k : Nat) : Int) ∧
        (∃ a : Attribute, attrs.get? k = some a ∧ a.1 = attr) ∧
        ∀ j : Nat, j < k → ∀ a : Attribute, attrs.get? j = some a → a.1 ≠ attr) := by
  intro attrs
  induction attrs with
  | nil =>
    intro i
    left
    exact ⟨rfl, by simp⟩
  | cons a rest ih =>
    intro i
    by_cases h : a.1 = attr
    · right
      refine ⟨0, by simp [indexOfFrom, h], ⟨a, rfl, h⟩, ?_⟩
      intro j hj
      omega
    · rcases ih (i + 1) with ⟨he, hall⟩ | ⟨k, he, ⟨b, hb, hb2⟩, hmin⟩
      · left
        refine ⟨by simp [indexOfFrom, h, he], ?_⟩
        intro x hx
        rcases List.mem_cons.mp hx with hx | hx
        · subst hx; exact h
        · exact hall x hx
      · right
        refine ⟨k + 1, ?_, ⟨b, by simpa using hb, hb2⟩, ?_⟩
        · rw [indexOfFrom]
          simp only [h, if_false]
          rw [he]
          congr 1
          omega
        · intro j hj c hc
          cases j with
          | zero =>
            simp only [List.get?_cons_zero, Option.some.injEq] at hc
            subst hc
            exact h
          | succ j2 =>
            simp only [List.get?_cons_succ] at hc
            exact hmin j2 (by omega) c hc

/-- Claim C10: `index_of` returns the smallest index whose attribute has the
given name and `-1` when no attribute has it; `contains` reports whether
some attribute has the name (so name-based operations resolve a duplicated
name to its first occurrence). -/
theorem index_of_first_match (data : Dataset) (attr : String) :
    (index_of data attr = -1 ↔ ∀ a ∈ data.attributes, a.1 ≠ attr) ∧
    (∀ i : Nat, index_of data attr = (i : Int) →
      ((∃ a : Attribute, data.attributes.get? i = some a ∧ a.1 = attr) ∧
       ∀ j : Nat, j < i → ∀ a : Attribute, data.attributes.get? j = some a → a.1 ≠ attr)) ∧
    (0 ≤ index_of data attr ∨ index_of data attr = -1) ∧
    (contains data attr = true ↔ ∃ a ∈ data.attributes, a.1 = attr) := by
  have hc : contains data attr = true ↔ index_of data attr > -1 := by
    unfold contains
    exact decide_eq_true_iff
  rcases indexOfFrom_spec attr data.attributes 0 with ⟨he, hall⟩ | ⟨k, he, ⟨b, hb, hb2⟩, hmin⟩
  · have he2 : index_of data attr = -1 := he
    refine ⟨⟨fun _ => hall, fun _ => he2⟩, ?_, Or.inr he2, ?_⟩
    · intro i hi
      rw [he2] at hi
      omega
    · rw [hc, he2]
      constructor
      · intro h; omega
      · rintro ⟨a, ha, ha2⟩
        exact absurd ha2 (hall a ha)
  · have he2 : index_of data attr = (k : Int) := by
      have : index_of data attr = ((0 + k : Nat) : Int) := he
      simpa using this
    refine ⟨?_, ?_, Or.inl (by rw [he2]; exact Int.natCast_nonneg k), ?_⟩
    · constructor
      · intro h
        rw [he2] at h
        omega
      · intro hall
        exact absurd hb2 (hall b (List.get?_mem hb))
    · intro i hi
      rw [he2] at hi
      have : k = i := by omega
      subst this
      exact ⟨⟨b, hb, hb2⟩, fun j hj a ha => hmin j hj a ha⟩
    · rw [hc, he2]
      constructor
      · intro _
        exact ⟨b, List.get?_mem hb, hb2⟩
      · intro _
        omega

/-- Claim C10 witness: on a concrete dataset with a duplicated attribute
name, `index_of` resolves to the first occurrence. -/
theorem index_of_first_match_witness :
    (∃ a : Attribute,
        ({ relation := "r"
           attributes := [("a", AttrType.simple "NUMERIC"),
                          ("b", AttrType.nominal ["X"]),
                          ("b", AttrType.simple "STRING")]
           data := [[Cell.num 1, Cell.str "X", Cell.str "u"]]
           description := "" } : Dataset).attributes.get? 1 = some a ∧ a.1 = "b") ∧
    ∀ j : Nat, j < 1 → ∀ a : Attribute,
      ({ relation := "r"
         attributes := [("a", AttrType.simple "NUMERIC"),
                        ("b", AttrType.nominal ["X"]),
                        ("b", AttrType.simple "STRING")]
         data := [[Cell.num 1, Cell.str "X", Cell.str "u"]]
         description := "" } : Dataset).attributes.get? j = some a → a.1 ≠ "b" :=
  (index_of_first_match
    { relation := "r"
      attributes := [("a", AttrType.simple "NUMERIC"),
                     ("b", AttrType.nominal ["X"]),
                     ("b", AttrType.simple "STRING")]
      data := [[Cell.num 1, Cell.str "X", Cell.str "u"]]
      description := "" } "b").2.1 1 rfl

/-! ### Sorting: `sort_by` -/

theorem cellLe_trans :
    ∀ a b c : Cell, cellLe a b = true → cellLe b c = true → cellLe a c = true := by
  intro a b c hab hbc
  cases a <;> cases b <;> cases c <;> simp_all [cellLe]
  · omega
  · exact le_trans hab hbc

theorem cellLe_total : ∀ a b : Cell, cellLe a b || cellLe b a := by
  intro a b
  cases a <;> cases b <;> simp_all [cellLe]
  · omega
  · exact le_total _ _

/-- Claim C7: `sort_by` fails with the attribute-not-found error when no
attribute has the given name; otherwise it succeeds and returns the dataset
with relation, attribute list and description unchanged and with its rows a
stable ascending reordering (a permutation that is pairwise ordered by the
cell at the attribute's index, and every already-ordered subsequence of the
input rows survives as a subsequence of the output, so ties keep their
original relative order). -/
theorem sort_by_stable_ascending (data : Dataset) (attr : String) :
    (index_of data attr < 0 → sort_by data attr = .error .attributeNotFound) ∧
    (0 ≤ index_of data attr →
      ∃ d2 : Dataset, sort_by data attr = .ok d2 ∧
        d2.relation = data.relation ∧ d2.attributes = data.attributes ∧
        d2.description = data.description ∧
        List.Perm d2.data data.data ∧
        List.Pairwise (fun r s => cellLe (rowKey (index_of data attr).toNat r)
          (rowKey (index_of data attr).toNat s) = true) d2.data ∧
        ∀ c : List Row,
          List.Pairwise (fun r s => cellLe (rowKey (index_of data attr).toNat r)
            (rowKey (index_of data attr).toNat s) = true) c →
          List.Sublist c data.data → List.Sublist c d2.data) := by
  constructor
  · intro h
    unfold sort_by
    rw [if_pos h]
  · intro h
    have hne : ¬ index_of data attr < 0 := not_lt.mpr h
    refine ⟨{ data with
              data := data.data.mergeSort
                (fun r s => cellLe (rowKey (index_of data attr).toNat r)
                  (rowKey (index_of data attr).toNat s)) }, ?_, rfl, rfl, rfl, ?_, ?_, ?_⟩
    · unfold sort_by
      rw [if_neg hne]
    · exact List.mergeSort_perm data.data _
    · apply List.sorted_mergeSort
      · exact fun a b c hab hbc => cellLe_trans _ _ _ hab hbc
      · exact fun a b => cellLe_total _ _
    · intro c hc hsub
      apply List.sublist_mergeSort
      · exact fun a b c2 hab hbc => cellLe_trans _ _ _ hab hbc
      · exact fun a b => cellLe_total _ _
      · exact hc
      · exact hsub

/-- Concrete dataset used by the `sort_by` witness. -/
def sortExample : Dataset :=
  { relation := "r"
    attributes := [("k", AttrType.simple "NUMERIC"), ("v", AttrType.simple "NUMERIC")]
    data := [[Cell.num 3, Cell.num 0], [Cell.num 1, Cell.num 1], [Cell.num 1, Cell.num 2]]
    description := "d" }

/-- Claim C7 witness: `sort_by` at a concrete dataset with a tie in the sort
column. -/
theorem sort_by_stable_ascending_witness :
    ∃ d2 : Dataset, sort_by sortExample "k" = .ok d2 ∧
      d2.relation = sortExample.relation ∧ d2.attributes = sortExample.attributes ∧
      d2.description = sortExample.description ∧
      List.Perm d2.data sortExample.data ∧
      List.Pairwise (fun r s => cellLe (rowKey (index_of sortExample "k").toNat r)
        (rowKey (index_of sortExample "k").toNat s) = true) d2.data ∧
      ∀ c : List Row,
        List.Pairwise (fun r s => cellLe (rowKey (index_of sortExample "k").toNat r)
          (rowKey (index_of sortExample "k").toNat s) = true) c →
        List.Sublist c sortExample.data → List.Sublist c d2.data :=
  (sort_by_stable_ascending sortExample "k").2 (by decide)

/-! ### Append -/

theorem checkNominalValues_self (i : Nat) :
    ∀ (d : List String) (j : Nat), checkNominalValues i d d j = .ok () := by
  intro d
  induction d with
  | nil => intro j; rfl
  | cons v rest ih => intro j; simp [checkNominalValues, ih]

theorem checkAttributePairs_self :
    ∀ (attrs : List Attribute) (i : Nat), checkAttributePairs attrs attrs i = .ok () := by
  intro attrs
  induction attrs with
  | nil => intro i; rfl
  | cons a rest ih =>
    intro i
    rcases a with ⟨nm, ty⟩
    cases ty with
    | simple t => simp [checkAttributePairs, ih]
    | nominal d => simp [checkAttributePairs, checkNominalValues_self, ih]

/-- Claim C2 counterexample: a dataset with zero rows fails the spec's
structural validation, yet `append` accepts it and returns a zero-row
result (no error of any kind is raised). -/
theorem append_accepts_zero_rows :
    append
      { relation := "r", attributes := [("x", AttrType.simple "NUMERIC")],
        data := [], description := "d" }
      { relation := "r", attributes := [("x", AttrType.simple "NUMERIC")],
        data := [], description := "d" } =
    .ok ({ relation := "r", attributes := [("x", AttrType.simple "NUMERIC")],
           data := [], description := "d" }, []) := rfl

/-- Claim C2 (amended): `append` and `merge` perform no structural
validation at all.  `append a a` succeeds for every dataset `a` — including
one with an absent relation name, an empty attribute list or zero rows —
and `merge` likewise accepts a zero-row dataset with an empty relation
name. -/
theorem append_merge_no_validation :
    (∀ a : Dataset, append a a =
      .ok ({ relation := a.relation, attributes := a.attributes,
             data := a.data ++ a.data, description := a.description }, [])) ∧
    merge
      { relation := "", attributes := [("id", AttrType.simple "NUMERIC")],
        data := [], description := "" }
      { relation := "", attributes := [("id", AttrType.simple "NUMERIC")],
        data := [], description := "" } "id" [] =
    .ok ({ relation := "", attributes := [("id", AttrType.simple "NUMERIC")],
           data := [], description := "" },
         { relation := "", attributes := [("id", AttrType.simple "NUMERIC")],
           data := [], description := "" },
         { relation := "", attributes := [("id", AttrType.simple "NUMERIC")],
           data := [], description := "" }) := by
  constructor
  · intro a
    unfold append descriptionWarnings
    simp [checkAttributePairs_self]
  · rfl

/-- Claim C4 counterexample: two validation-passing datasets with equal
schemas but different relation names are rejected by `append`, which the
claim says must succeed regardless of differing relations. -/
theorem append_rejects_mismatching_relations :
    append
      { relation := "a", attributes := [("x", AttrType.simple "NUMERIC")],
        data := [[Cell.num 1]], description := "" }
      { relation := "b", attributes := [("x", AttrType.simple "NUMERIC")],
        data := [[Cell.num 2]], description := "" } =
    .error .mismatchingRelations := rfl

/-- Claim C4 (amended): `append` additionally requires the two relation
names to be equal (raising otherwise); given equal relations and
position-wise equal attributes it succeeds and returns relation
`a.relation`, schema `a.attributes`, description `a.description` — with
only a non-fatal warning when the descriptions differ — and rows `a.data`
followed by `b.data`, so the result has `a.data.length + b.data.length`
rows. -/
theorem append_ok_of_matching (a b : Dataset) (hrel : a.relation = b.relation)
    (hattrs : a.attributes = b.attributes) :
    append a b = .ok ({ relation := a.relation, attributes := a.attributes,
                        data := a.data ++ b.data, description := a.description },
                      descriptionWarnings a b) ∧
    (a.data ++ b.data).length = a.data.length + b.data.length := by
  constructor
  · unfold append
    rw [if_pos hrel, if_pos (by rw [hattrs]), hattrs, checkAttributePairs_self]
  · exact List.length_append a.data b.data

/-- Claim C4 witness: `append` on concrete datasets with equal relations
and schemas but differing descriptions. -/
theorem append_ok_of_matching_witness :
    append
      { relation := "r", attributes := [("x", AttrType.simple "NUMERIC")],
        data := [[Cell.num 1]], description := "d1" }
      { relation := "r", attributes := [("x", AttrType.simple "NUMERIC")],
        data := [[Cell.num 2], [Cell.num 3]], description := "d2" } =
    .ok ({ relation := "r", attributes := [("x", AttrType.simple "NUMERIC")],
           data := [[Cell.num 1], [Cell.num 2], [Cell.num 3]], description := "d1" },
         ["WARNING: mismatching descriptions, taking data1"]) :=
  (append_ok_of_matching
    { relation := "r", attributes := [("x", AttrType.simple "NUMERIC")],
      data := [[Cell.num 1]], description := "d1" }
    { relation := "r", attributes := [("x", AttrType.simple "NUMERIC")],
      data := [[Cell.num 2], [Cell.num 3]], description := "d2" } rfl rfl).1

/-- Claim C5 counterexample: at position 0 both attributes are nominal with
domains of different lengths (`["A"]` versus `["A", "B"]`), which the claim
says must fail with a schema mismatch; `append` accepts the pair because
the domain comparison loop only runs over the first domain's indices. -/
theorem append_accepts_extended_domain :
    append
      { relation := "r", attributes := [("x", AttrType.nominal ["A"])],
        data := [[Cell.str "A"]], description := "" }
      { relation := "r", attributes := [("x", AttrType.nominal ["A", "B"])],
        data := [[Cell.str "B"]], description := "" } =
    .ok ({ relation := "r", attributes := [("x", AttrType.nominal ["A"])],
           data := [[Cell.str "A"], [Cell.str "B"]], description := "" }, []) := rfl

theorem checkNominalValues_ok_iff (i : Nat) :
    ∀ (d1 d2 : List String) (j : Nat),
      (checkNominalValues i d1 d2 j = .ok () ↔ d2.take d1.length = d1) := by
  intro d1
  induction d1 with
  | nil => intro d2 j; simp [checkNominalValues]
  | cons v rest ih =>
    intro d2 j
    cases d2 with
    | nil => simp [checkNominalValues]
    | cons w r2 =>
      simp only [checkNominalValues, List.length_cons, List.take_succ_cons, List.cons.injEq]
      by_cases h : v = w
      · subst h
        simp [ih]
      · rw [if_neg h]
        constructor
        · intro hcon
          simp at hcon
        · rintro ⟨hwv, _⟩
          exact absurd hwv.symm h

theorem checkAttributePairs_ok_iff :
    ∀ (l1 l2 : List Attribute) (i : Nat), l1.length = l2.length →
      (checkAttributePairs l1 l2 i = .ok () ↔ List.Forall₂ attrCompatible l1 l2) := by
  intro l1
  induction l1 with
  | nil =>
    intro l2 i h
    cases l2 with
    | nil => simp [checkAttributePairs]
    | cons b r2 => simp at h
  | cons a1 r1 ih =>
    intro l2 i h
    cases l2 with
    | nil => simp at h
    | cons a2 r2 =>
      have hlen : r1.length = r2.length := by simpa using h
      rcases a1 with ⟨n1, ty1⟩
      rcases a2 with ⟨n2, ty2⟩
      by_cases hn : n1 = n2
      · subst hn
        cases ty1 with
        | simple t1 =>
          cases ty2 with
          | simple t2 =>
            by_cases ht : AttrType.simple t1 = AttrType.simple t2
            · simp [checkAttributePairs, ht, List.forall₂_cons, attrCompatible, ih r2 (i + 1) hlen]
            · simp [checkAttributePairs, ht, List.forall₂_cons, attrCompatible]
          | nominal d2 =>
            simp [checkAttributePairs, List.forall₂_cons, attrCompatible]
        | nominal d1 =>
          cases ty2 with
          | simple t2 =>
            simp [checkAttributePairs, List.forall₂_cons, attrCompatible]
          | nominal d2 =>
            rcases hcv : checkNominalValues i d1 d2 0 with e | u
            · have htake : ¬ d2.take d1.length = d1 := by
                intro hcon
                have := (checkNominalValues_ok_iff i d1 d2 0).mpr hcon
                rw [hcv] at this
                cases this
              simp [checkAttributePairs, hcv, List.forall₂_cons, attrCompatible, htake]
            · cases u
              have htake : d2.take d1.length = d1 :=
                (checkNominalValues_ok_iff i d1 d2 0).mp hcv
              simp [checkAttributePairs, hcv, List.forall₂_cons, attrCompatible, htake,
                ih r2 (i + 1) hlen]
      · simp [checkAttributePairs, hn, List.forall₂_cons, attrCompatible]

/-- Claim C5 (amended): given equal relations and equally long attribute
lists, `append` succeeds exactly when every position has equal names and
compatible types, where two nominal attributes are compatible whenever the
second domain restricted to the first domain's length equals the first
domain (so a second domain extending the first is accepted, domains of
different lengths are not always rejected) and any other pair of type
fields must be equal; a mismatch at any position makes `append` fail. -/
theorem append_success_characterization (a b : Dataset) (hrel : a.relation = b.relation)
    (hlen : a.attributes.length = b.attributes.length) :
    (∃ x, append a b = .ok x) ↔ List.Forall₂ attrCompatible a.attributes b.attributes := by
  rw [← checkAttributePairs_ok_iff a.attributes b.attributes 0 hlen]
  unfold append
  rw [if_pos hrel, if_pos hlen]
  rcases hc : checkAttributePairs a.attributes b.attributes 0 with e | u
  · simp
  · cases u
    simp

/-- Claim C5 witness: the characterization applied to the concrete
prefix-domain pair, concluding that `append` succeeds there. -/
theorem append_success_characterization_witness :
    ∃ x, append
      { relation := "r", attributes := [("x", AttrType.nominal ["A"])],
        data := [[Cell.str "A"]], description := "" }
      { relation := "r", attributes := [("x", AttrType.nominal ["A", "B"])],
        data := [[Cell.str "B"]], description := "" } = .ok x :=
  (append_success_characterization
    { relation := "r", attributes := [("x", AttrType.nominal ["A"])],
      data := [[Cell.str "A"]], description := "" }
    { relation := "r", attributes := [("x", AttrType.nominal ["A", "B"])],
      data := [[Cell.str "B"]], description := "" } rfl rfl).mpr
    (List.Forall₂.cons ⟨rfl, show (["A", "B"].take 1 = ["A"]) from rfl⟩ List.Forall₂.nil)

/-! ### Merge -/

theorem extendRows_all_matched (lk : List (Cell × Row)) (j1 : Nat) (idxs : List Nat) :
    ∀ rows : List Row, (∀ r ∈ rows, (lookupRow lk (rowKey j1 r)).isSome = true) →
      extendRows lk j1 idxs rows = .ok (rows.map (fun r =>
        r ++ idxs.map (fun j => ((lookupRow lk (rowKey j1 r)).getD []).getD j Cell.missing))) := by
  intro rows
  induction rows with
  | nil => intro _; rfl
  | cons r rest ih =>
    intro h
    have hr := h r (List.mem_cons_self r rest)
    rcases hs : lookupRow lk (rowKey j1 r) with _ | r2
    · rw [hs] at hr
      simp at hr
    · simp [extendRows, hs, ih (fun x hx => h x (List.mem_cons_of_mem r hx))]

theorem extendRows_first_unmatched (lk : List (Cell × Row)) (j1 : Nat) (idxs : List Nat) :
    ∀ (rows : List Row) (r : Row),
      rows.find? (fun x => (lookupRow lk (rowKey j1 x)).isNone) = some r →
      extendRows lk j1 idxs rows = .error (.keyError (rowKey j1 r)) := by
  intro rows
  induction rows with
  | nil =>
    intro r h
    simp at h
  | cons x rest ih =>
    intro r h
    rcases hx : lookupRow lk (rowKey j1 x) with _ | r2
    · have hr : r = x := by
        rw [List.find?_cons_of_pos _ (by simp [hx])] at h
        exact (Option.some.injEq _ _ ▸ h).symm
      subst hr
      simp [extendRows, hx]
    · have h2 : rest.find? (fun y => (lookupRow lk (rowKey j1 y)).isNone) = some r := by
        rwa [List.find?_cons_of_neg _ (by simp [hx])] at h
      simp [extendRows, hx, ih r h2]

theorem merge_ok_of_all_matched (data1 data2 : Dataset) (join_by : String)
    (attrs : List String)
    (h1 : contains data1 join_by = true) (h2 : contains data2 join_by = true)
    (h3 : ∀ a ∈ attrs, contains data2 a = true)
    (h4 : ∀ a ∈ attrs, contains data1 a = false)
    (hall : ∀ r ∈ data1.data,
      (lookupRow (data2Lookup data2.data (index_of data2 join_by).toNat)
        (rowKey (index_of data1 join_by).toNat r)).isSome = true) :
    merge data1 data2 join_by attrs =
      .ok ({ relation := data1.relation
             attributes := data1.attributes ++
               (attrs.map (fun a => (index_of data2 a).toNat)).map
                 (fun i => data2.attributes.getD i ("", AttrType.simple ""))
             data := data1.data.map (fun r =>
               r ++ (attrs.map (fun a => (index_of data2 a).toNat)).map
                 (fun j => ((lookupRow (data2Lookup data2.data (index_of data2 join_by).toNat)
                   (rowKey (index_of data1 join_by).toNat r)).getD []).getD j Cell.missing))
             description := "" },
           { relation := data1.relation
             attributes := data1.attributes ++
               (attrs.map (fun a => (index_of data2 a).toNat)).map
                 (fun i => data2.attributes.getD i ("", AttrType.simple ""))
             data := data1.data.map (fun r =>
               r ++ (attrs.map (fun a => (index_of data2 a).toNat)).map
                 (fun j => ((lookupRow (data2Lookup data2.data (index_of data2 join_by).toNat)
                   (rowKey (index_of data1 join_by).toNat r)).getD []).getD j Cell.missing))
             description := data1.description },
           data2) := by
  have hf3 : attrs.find? (fun a => !(contains data2 a)) = none :=
    List.find?_eq_none.mpr (fun x hx => by simp [h3 x hx])
  have hf4 : attrs.find? (fun a => contains data1 a) = none :=
    List.find?_eq_none.mpr (fun x hx => by simp [h4 x hx])
  unfold merge
  rw [h1, h2, hf3, hf4]
  simp only [if_true]
  rw [extendRows_all_matched _ _ _ data1.data hall]

/-- Concrete primary/secondary datasets for the merge counterexamples and
witnesses. -/
def primaryUnmatched : Dataset :=
  { relation := "r"
    attributes := [("id", AttrType.simple "NUMERIC")]
    data := [[Cell.num 1]]
    description := "pd" }

def primaryMatched : Dataset :=
  { relation := "r"
    attributes := [("id", AttrType.simple "NUMERIC")]
    data := [[Cell.num 2]]
    description := "pd" }

def secondarySingle : Dataset :=
  { relation := "s"
    attributes := [("id", AttrType.simple "NUMERIC"), ("v", AttrType.simple "NUMERIC")]
    data := [[Cell.num 2, Cell.num 5]]
    description := "sd" }

def secondaryDuplicate : Dataset :=
  { relation := "s"
    attributes := [("id", AttrType.simple "NUMERIC"), ("v", AttrType.simple "NUMERIC")]
    data := [[Cell.num 2, Cell.num 10], [Cell.num 2, Cell.num 20]]
    description := "sd" }

/-- Claim C1 counterexample: the primary row's key `1` has no match in the
secondary dataset; the claim says the row is dropped with a non-fatal
diagnostic and merge still produces a result, but merge fails with a
key-lookup error instead. -/
theorem merge_missing_key_raises :
    merge primaryUnmatched secondarySingle "id" ["v"] =
      .error (.keyError (Cell.num 1)) := rfl

/-- Claim C1 (amended): a primary row whose joinKey cell value has no
matching key in the secondary lookup map makes merge fail with a key error
naming the first such missing key — the row is not dropped, not null-padded,
and no result is produced; when every primary row has a match, merge
succeeds and every primary row appears in the result extended with the
selected secondary cell values. -/
theorem merge_extends_or_raises (data1 data2 : Dataset) (join_by : String)
    (attrs : List String)
    (h1 : contains data1 join_by = true) (h2 : contains data2 join_by = true)
    (h3 : ∀ a ∈ attrs, contains data2 a = true)
    (h4 : ∀ a ∈ attrs, contains data1 a = false) :
    ((∀ r ∈ data1.data,
        (lookupRow (data2Lookup data2.data (index_of data2 join_by).toNat)
          (rowKey (index_of data1 join_by).toNat r)).isSome = true) →
      merge data1 data2 join_by attrs =
        .ok ({ relation := data1.relation
               attributes := data1.attributes ++
                 (attrs.map (fun a => (index_of data2 a).toNat)).map
                   (fun i => data2.attributes.getD i ("", AttrType.simple ""))
               data := data1.data.map (fun r =>
                 r ++ (attrs.map (fun a => (index_of data2 a).toNat)).map
                   (fun j => ((lookupRow (data2Lookup data2.data (index_of data2 join_by).toNat)
                     (rowKey (index_of data1 join_by).toNat r)).getD []).getD j Cell.missing))
               description := "" },
             { relation := data1.relation
               attributes := data1.attributes ++
                 (attrs.map (fun a => (index_of data2 a).toNat)).map
                   (fun i => data2.attributes.getD i ("", AttrType.simple ""))
               data := data1.data.map (fun r =>
                 r ++ (attrs.map (fun a => (index_of data2 a).toNat)).map
                   (fun j => ((lookupRow (data2Lookup data2.data (index_of data2 join_by).toNat)
                     (rowKey (index_of data1 join_by).toNat r)).getD []).getD j Cell.missing))
               description := data1.description },
             data2)) ∧
    (∀ r : Row,
      data1.data.find? (fun x =>
        (lookupRow (data2Lookup data2.data (index_of data2 join_by).toNat)
          (rowKey (index_of data1 join_by).toNat x)).isNone) = some r →
      merge data1 data2 join_by attrs =
        .error (.keyError (rowKey (index_of data1 join_by).toNat r))) := by
  have hf3 : attrs.find? (fun a => !(contains data2 a)) = none :=
    List.find?_eq_none.mpr (fun x hx => by simp [h3 x hx])
  have hf4 : attrs.find? (fun a => contains data1 a) = none :=
    List.find?_eq_none.mpr (fun x hx => by simp [h4 x hx])
  constructor
  · intro hall
    exact merge_ok_of_all_matched data1 data2 join_by attrs h1 h2 h3 h4 hall
  · intro r hr
    unfold merge
    rw [h1, h2, hf3, hf4]
    simp only [if_true]
    rw [extendRows_first_unmatched _ _ _ data1.data r hr]

/-- Claim C1 witness: the success half applied at a fully matched concrete
input. -/
theorem merge_extends_or_raises_witness :
    merge primaryMatched secondarySingle "id" ["v"] =
      .ok ({ relation := "r"
             attributes := [("id", AttrType.simple "NUMERIC"), ("v", AttrType.simple "NUMERIC")]
             data := [[Cell.num 2, Cell.num 5]]
             description := "" },
           { relation := "r"
             attributes := [("id", AttrType.simple "NUMERIC"), ("v", AttrType.simple "NUMERIC")]
             data := [[Cell.num 2, Cell.num 5]]
             description := "pd" },
           secondarySingle) :=
  (merge_extends_or_raises primaryMatched secondarySingle "id" ["v"]
    rfl rfl (by decide) (by decide)).1 (by decide)

/-- Claim C3 counterexample: a successful concrete merge returns a final
primary state whose attribute list and rows are the extended ones, so the
primary dataset is not left unchanged. -/
theorem merge_changes_primary :
    merge primaryMatched secondarySingle "id" ["v"] =
      .ok ({ relation := "r"
             attributes := [("id", AttrType.simple "NUMERIC"), ("v", AttrType.simple "NUMERIC")]
             data := [[Cell.num 2, Cell.num 5]]
             description := "" },
           { relation := "r"
             attributes := [("id", AttrType.simple "NUMERIC"), ("v", AttrType.simple "NUMERIC")]
             data := [[Cell.num 2, Cell.num 5]]
             description := "pd" },
           secondarySingle) ∧
    ({ relation := "r"
       attributes := [("id", AttrType.simple "NUMERIC"), ("v", AttrType.simple "NUMERIC")]
       data := [[Cell.num 2, Cell.num 5]]
       description := "pd" } : Dataset) ≠ primaryMatched := by
  constructor
  · rfl
  · decide

/-- Claim C3 (amended): merge leaves the secondary dataset unchanged, but it
mutates the primary in place: after a successful call the primary's
attribute list and rows are the extended ones shared with the result (only
relation and description keep their original values), so the primary is not
left as it was before the call. -/
theorem merge_mutates_primary_frame (data1 data2 : Dataset) (join_by : String)
    (attrs : List String) (res pA sA : Dataset)
    (h : merge data1 data2 join_by attrs = .ok (res, pA, sA)) :
    sA = data2 ∧
    pA.relation = data1.relation ∧
    pA.description = data1.description ∧
    pA.attributes = res.attributes ∧
    pA.data = res.data ∧
    res.relation = data1.relation ∧
    res.description = "" ∧
    res.attributes = data1.attributes ++
      (attrs.map (fun a => (index_of data2 a).toNat)).map
        (fun i => data2.attributes.getD i ("", AttrType.simple "")) := by
  unfold merge at h
  rcases hc1 : contains data1 join_by with _ | _ <;> rw [hc1] at h
  · simp at h
  rcases hc2 : contains data2 join_by with _ | _ <;> rw [hc2] at h
  · simp at h
  simp only [if_true] at h
  rcases hf3 : attrs.find? (fun a => !(contains data2 a)) with _ | a3 <;> rw [hf3] at h
  case some => simp at h
  rcases hf4 : attrs.find? (fun a => contains data1 a) with _ | a4 <;> rw [hf4] at h
  case some => simp at h
  rcases he : extendRows (data2Lookup data2.data (index_of data2 join_by).toNat)
      (index_of data1 join_by).toNat
      (attrs.map (fun a => (index_of data2 a).toNat)) data1.data with e | rows <;>
    rw [he] at h
  · simp at h
  · simp only [Except.ok.injEq, Prod.mk.injEq] at h
    obtain ⟨hres, hpa, hsa⟩ := h
    subst hres hpa hsa
    exact ⟨rfl, rfl, rfl, rfl, rfl, rfl, rfl, rfl⟩

/-- Claim C3 witness: the frame characterization applied to a successful
concrete merge. -/
theorem merge_mutates_primary_frame_witness :
    secondarySingle = secondarySingle ∧
    ({ relation := "r"
       attributes := [("id", AttrType.simple "NUMERIC"), ("v", AttrType.simple "NUMERIC")]
       data := [[Cell.num 2, Cell.num 5]]
       description := "pd" } : Dataset).relation = primaryMatched.relation ∧
    ({ relation := "r"
       attributes := [("id", AttrType.simple "NUMERIC"), ("v", AttrType.simple "NUMERIC")]
       data := [[Cell.num 2, Cell.num 5]]
       description := "pd" } : Dataset).description = primaryMatched.description ∧
    ({ relation := "r"
       attributes := [("id", AttrType.simple "NUMERIC"), ("v", AttrType.simple "NUMERIC")]
       data := [[Cell.num 2, Cell.num 5]]
       description := "pd" } : Dataset).attributes =
      ({ relation := "r"
         attributes := [("id", AttrType.simple "NUMERIC"), ("v", AttrType.simple "NUMERIC")]
         data := [[Cell.num 2, Cell.num 5]]
         description := "" } : Dataset).attributes ∧
    ({ relation := "r"
       attributes := [("id", AttrType.simple "NUMERIC"), ("v", AttrType.simple "NUMERIC")]
       data := [[Cell.num 2, Cell.num 5]]
       description := "pd" } : Dataset).data =
      ({ relation := "r"
         attributes := [("id", AttrType.simple "NUMERIC"), ("v", AttrType.simple "NUMERIC")]
         data := [[Cell.num 2, Cell.num 5]]
         description := "" } : Dataset).data ∧
    ({ relation := "r"
       attributes := [("id", AttrType.simple "NUMERIC"), ("v", AttrType.simple "NUMERIC")]
       data := [[Cell.num 2, Cell.num 5]]
       description := "" } : Dataset).relation = primaryMatched.relation ∧
    ({ relation := "r"
       attributes := [("id", AttrType.simple "NUMERIC"), ("v", AttrType.simple "NUMERIC")]
       data := [[Cell.num 2, Cell.num 5]]
       description := "" } : Dataset).description = "" ∧
    ({ relation := "r"
       attributes := [("id", AttrType.simple "NUMERIC"), ("v", AttrType.simple "NUMERIC")]
       data := [[Cell.num 2, Cell.num 5]]
       description := "" } : Dataset).attributes = primaryMatched.attributes ++
      ((["v"].map (fun a => (index_of secondarySingle a).toNat)).map
        (fun i => secondarySingle.attributes.getD i ("", AttrType.simple ""))) :=
  merge_mutates_primary_frame primaryMatched secondarySingle "id" ["v"] _ _ _ rfl

theorem lookupRow_foldl (joinIdx : Nat) :
    ∀ (rows : List Row) (acc : List (Cell × Row)) (k : Cell),
      lookupRow (rows.foldl (fun m r => (rowKey joinIdx r, r) :: m) acc) k =
        match lastMatchRow rows joinIdx k with
        | some r => some r
        | none => lookupRow acc k := by
  intro rows
  induction rows with
  | nil => intro acc k; rfl
  | cons r rest ih =>
    intro acc k
    rw [List.foldl_cons, ih]
    cases hm : lastMatchRow rest joinIdx k with
    | some r2 => simp [lastMatchRow, hm]
    | none =>
      simp only [lastMatchRow, hm, lookupRow]
      by_cases hk : rowKey joinIdx r = k <;> simp [hk]

/-- The Python dict built by merge resolves every key to the last secondary
row with that key, in row order. -/
theorem lookupRow_eq_lastMatchRow (rows : List Row) (joinIdx : Nat) (k : Cell) :
    lookupRow (data2Lookup rows joinIdx) k = lastMatchRow rows joinIdx k := by
  unfold data2Lookup
  rw [lookupRow_foldl]
  cases lastMatchRow rows joinIdx k <;> rfl

/-- Claim C8: duplicate joinKey values in the secondary dataset are not an
error: each matching primary row is extended with the column values taken
from the last secondary row having that key, in row order (last-write-wins),
and merge succeeds. -/
theorem merge_last_write_wins (data1 data2 : Dataset) (join_by : String)
    (attrs : List String)
    (h1 : contains data1 join_by = true) (h2 : contains data2 join_by = true)
    (h3 : ∀ a ∈ attrs, contains data2 a = true)
    (h4 : ∀ a ∈ attrs, contains data1 a = false)
    (hall : ∀ r ∈ data1.data,
      (lastMatchRow data2.data (index_of data2 join_by).toNat
        (rowKey (index_of data1 join_by).toNat r)).isSome = true) :
    merge data1 data2 join_by attrs =
      .ok ({ relation := data1.relation
             attributes := data1.attributes ++
               (attrs.map (fun a => (index_of data2 a).toNat)).map
                 (fun i => data2.attributes.getD i ("", AttrType.simple ""))
             data := data1.data.map (fun r =>
               r ++ (attrs.map (fun a => (index_of data2 a).toNat)).map
                 (fun j => ((lastMatchRow data2.data (index_of data2 join_by).toNat
                   (rowKey (index_of data1 join_by).toNat r)).getD []).getD j Cell.missing))
             description := "" },
           { relation := data1.relation
             attributes := data1.attributes ++
               (attrs.map (fun a => (index_of data2 a).toNat)).map
                 (fun i => data2.attributes.getD i ("", AttrType.simple ""))
             data := data1.data.map (fun r =>
               r ++ (attrs.map (fun a => (index_of data2 a).toNat)).map
                 (fun j => ((lastMatchRow data2.data (index_of data2 join_by).toNat
                   (rowKey (index_of data1 join_by).toNat r)).getD []).getD j Cell.missing))
             description := data1.description },
           data2) := by
  have hall2 : ∀ r ∈ data1.data,
      (lookupRow (data2Lookup data2.data (index_of data2 join_by).toNat)
        (rowKey (index_of data1 join_by).toNat r)).isSome = true := by
    intro r hr
    rw [lookupRow_eq_lastMatchRow]
    exact hall r hr
  have hm := merge_ok_of_all_matched data1 data2 join_by attrs h1 h2 h3 h4 hall2
  simpa only [lookupRow_eq_lastMatchRow] using hm

/-- Claim C8 witness: the secondary dataset holds two rows with key `2`
(values 10 then 20); the matching primary row is extended with the value of
the second (last) one. -/
theorem merge_last_write_wins_witness :
    merge primaryMatched secondaryDuplicate "id" ["v"] =
      .ok ({ relation := "r"
             attributes := [("id", AttrType.simple "NUMERIC"), ("v", AttrType.simple "NUMERIC")]
             data := [[Cell.num 2, Cell.num 20]]
             description := "" },
           { relation := "r"
             attributes := [("id", AttrType.simple "NUMERIC"), ("v", AttrType.simple "NUMERIC")]
             data := [[Cell.num 2, Cell.num 20]]
             description := "pd" },
           secondaryDuplicate) :=
  merge_last_write_wins primaryMatched secondaryDuplicate "id" ["v"]
    rfl rfl (by decide) (by decide) (by decide)

/-! ### Missing-value normalization in `read` -/

theorem normalizeRows_otherSpec :
    ∀ rows : List Row,
      ((∃ r ∈ rows, r ≠ []) → normalizeRows .otherSpec rows = .error .invalidMissingType) ∧
      ((∀ r ∈ rows, r = []) → normalizeRows .otherSpec rows = .ok rows) := by
  intro rows
  induction rows with
  | nil =>
    constructor
    · rintro ⟨r, hr, _⟩
      simp at hr
    · intro _; rfl
  | cons r rest ih =>
    constructor
    · rintro ⟨x, hx, hxne⟩
      rcases List.mem_cons.mp hx with heq | hmem
      · subst heq
        cases x with
        | nil => exact absurd rfl hxne
        | cons c cs => rfl
      · cases r with
        | nil =>
          have herr := ih.1 ⟨x, hmem, hxne⟩
          simp [normalizeRows, normalizeRow, herr]
        | cons c cs => rfl
    · intro h
      have hr : r = [] := h r (List.mem_cons_self r rest)
      subst hr
      have := ih.2 (fun x hx => h x (List.mem_cons_of_mem [] hx))
      simp [normalizeRows, normalizeRow, this]

/-- Claim C6 counterexample: with a zero-row parsed table, `read` with a
`missing` value of invalid type (e.g. a dict) raises nothing at all and
returns the data unchanged, because the type test sits inside the per-cell
loop. -/
theorem readNormalize_accepts_invalid_on_empty :
    readNormalize
      { relation := "r", attributes := [("x", AttrType.simple "NUMERIC")],
        data := [], description := "d" } .otherSpec =
    .ok { relation := "r", attributes := [("x", AttrType.simple "NUMERIC")],
          data := [], description := "d" } := rfl

/-- Claim C6 (amended): a `missing` value whose type is outside
{none, string, list-of-strings} makes `read` fail with the invalid-argument
error exactly when the parsed table has at least one cell; with zero rows or
with only zero-length rows the invalid value is silently accepted and the
data is returned unchanged. -/
theorem readNormalize_invalid_type (data : Dataset) :
    ((∃ r ∈ data.data, r ≠ []) →
      readNormalize data .otherSpec = .error .invalidMissingType) ∧
    ((∀ r ∈ data.data, r = []) → readNormalize data .otherSpec = .ok data) := by
  constructor
  · intro h
    have := (normalizeRows_otherSpec data.data).1 h
    simp [readNormalize, this]
  · intro h
    have := (normalizeRows_otherSpec data.data).2 h
    simp [readNormalize, this]

/-- Claim C6 witness: with one non-empty row the invalid `missing` type
raises. -/
theorem readNormalize_invalid_type_witness :
    readNormalize
      { relation := "r", attributes := [("x", AttrType.simple "NUMERIC")],
        data := [[Cell.num 1]], description := "d" } .otherSpec =
    .error .invalidMissingType :=
  (readNormalize_invalid_type
    { relation := "r", attributes := [("x", AttrType.simple "NUMERIC")],
      data := [[Cell.num 1]], description := "d" }).1 ⟨[Cell.num 1], by decide, by decide⟩

/-! ### Dummy encoding (modelled from the spec) -/

theorem sum_indicator_not_mem (c : Cell) :
    ∀ dom : List String, (∀ v ∈ dom, c ≠ Cell.str v) →
      ((dom.map (fun v => if c = Cell.str v then Cell.num 1 else Cell.num 0)).map
        cellNumVal).sum = 0 := by
  intro dom
  induction dom with
  | nil => intro _; rfl
  | cons v rest ih =>
    intro h
    have hv : c ≠ Cell.str v := h v (List.mem_cons_self v rest)
    simp only [List.map_cons, List.sum_cons, if_neg hv]
    rw [ih (fun w hw => h w (List.mem_cons_of_mem v hw))]
    rfl

theorem sum_indicator (c : Cell) :
    ∀ dom : List String, dom.Nodup →
      ((dom.map (fun v => if c = Cell.str v then Cell.num 1 else Cell.num 0)).map
        cellNumVal).sum =
      if ∃ v ∈ dom, c = Cell.str v then 1 else 0 := by
  intro dom
  induction dom with
  | nil => intro _; simp
  | cons v rest ih =>
    intro hnd
    have hv : v ∉ rest := (List.nodup_cons.mp hnd).1
    have hrest : rest.Nodup := (List.nodup_cons.mp hnd).2
    by_cases hc : c = Cell.str v
    · have hzero : ((rest.map (fun w => if c = Cell.str w then Cell.num 1 else Cell.num 0)).map
          cellNumVal).sum = 0 := by
        apply sum_indicator_not_mem
        intro w hw hcon
        rw [hc] at hcon
        have : v = w := by
          injection hcon
        exact hv (this ▸ hw)
      simp only [List.map_cons, List.sum_cons, if_pos hc, hzero]
      rw [if_pos ⟨v, List.mem_cons_self v rest, hc⟩]
      rfl
    · simp only [List.map_cons, List.sum_cons, if_neg hc]
      rw [ih hrest]
      have hiff : (∃ w ∈ v :: rest, c = Cell.str w) ↔ (∃ w ∈ rest, c = Cell.str w) := by
        constructor
        · rintro ⟨w, hw, hcw⟩
          rcases List.mem_cons.mp hw with hw | hw
          · exact absurd (hw ▸ hcw) hc
          · exact ⟨w, hw, hcw⟩
        · rintro ⟨w, hw, hcw⟩
          exact ⟨w, List.mem_cons_of_mem v hw, hcw⟩
      rw [if_congr hiff rfl rfl]
      cases Decidable.em (∃ w ∈ rest, c = Cell.str w) with
      | inl hex => rw [if_pos hex]; simp [cellNumVal]
      | inr hex => rw [if_neg hex]; simp [cellNumVal]

/-- Claim C9: for a NOMINAL attribute with ordered domain `[v1..vk]`,
`dummyEncode` replaces that single column with `k` NUMERIC columns named
`v1..vk` at the same position; in every row the new cells are `1` exactly in
the column named by the row's original cell value and `0` elsewhere, so the
per-row sum of the `k` new cells is `1` when the original value is in the
domain and `0` otherwise (missing or unrecognized values give all zeros,
never an error); for a non-NOMINAL attribute the dataset is returned
unchanged with an empty domain. -/
theorem dummyEncode_one_of_k (data : Dataset) (attr : String) (n : Nat)
    (dom : List String)
    (hfind : index_of data attr = (n : Int))
    (hattr : data.attributes.get? n = some (attr, AttrType.nominal dom))
    (hnodup : dom.Nodup) :
    (dummyEncode data attr).2 = dom ∧
    (dummyEncode data attr).1.relation = data.relation ∧
    (dummyEncode data attr).1.description = data.description ∧
    (dummyEncode data attr).1.attributes =
      data.attributes.take n ++ dom.map (fun v => (v, AttrType.simple "NUMERIC")) ++
      data.attributes.drop (n + 1) ∧
    (dummyEncode data attr).1.data = data.data.map (fun r =>
      r.take n ++ dom.map (fun v =>
        if r.getD n Cell.missing = Cell.str v then Cell.num 1 else Cell.num 0) ++
      r.drop (n + 1)) ∧
    (∀ r ∈ data.data,
      ((dom.map (fun v =>
        if r.getD n Cell.missing = Cell.str v then Cell.num 1 else Cell.num 0)).map
          cellNumVal).sum =
        if ∃ v ∈ dom, r.getD n Cell.missing = Cell.str v then 1 else 0) ∧
    (∀ (d : Dataset) (a2 : String) (m : Nat) (t : String),
      index_of d a2 = (m : Int) → d.attributes.get? m = some (a2, AttrType.simple t) →
      dummyEncode d a2 = (d, [])) := by
  have hnn : ¬ index_of data attr < 0 := by
    rw [hfind]
    omega
  have htn : (index_of data attr).toNat = n := by
    rw [hfind]
    exact Int.toNat_natCast n
  have henc : dummyEncode data attr =
      ({ data with
         attributes := data.attributes.take n ++
           dom.map (fun v => (v, AttrType.simple "NUMERIC")) ++
           data.attributes.drop (n + 1)
         data := data.data.map (fun r =>
           r.take n ++
           dom.map (fun v =>
             if r.getD n Cell.missing = Cell.str v then Cell.num 1 else Cell.num 0) ++
           r.drop (n + 1)) },
       dom) := by
    unfold dummyEncode
    rw [if_neg hnn, htn, hattr]
  refine ⟨by rw [henc], by rw [henc], by rw [henc], by rw [henc], by rw [henc], ?_, ?_⟩
  · intro r _
    exact sum_indicator (r.getD n Cell.missing) dom hnodup
  · intro d a2 m t hfind2 hattr2
    have hnn2 : ¬ index_of d a2 < 0 := by
      rw [hfind2]
      omega
    have htn2 : (index_of d a2).toNat = m := by
      rw [hfind2]
      exact Int.toNat_natCast m
    unfold dummyEncode
    rw [if_neg hnn2, htn2, hattr2]

/-- Concrete dataset for the `dummyEncode` witness: a nominal column with
domain `["A", "B"]` and rows holding a domain value, an unrecognized value
and the missing sentinel. -/
def nominalExample : Dataset :=
  { relation := "r"
    attributes := [("id", AttrType.simple "NUMERIC"), ("cat", AttrType.nominal ["A", "B"])]
    data := [[Cell.num 1, Cell.str "A"], [Cell.num 2, Cell.str "C"], [Cell.num 3, Cell.missing]]
    description := "d" }

/-- Claim C9 witness: `dummyEncode` on the concrete nominal column returns
the domain and replaces the column at its position. -/
theorem dummyEncode_one_of_k_witness :
    (dummyEncode nominalExample "cat").2 = ["A", "B"] ∧
    (dummyEncode nominalExample "cat").1.attributes =
      nominalExample.attributes.take 1 ++
      (["A", "B"].map (fun v => (v, AttrType.simple "NUMERIC"))) ++
      nominalExample.attributes.drop 2 :=
  ⟨(dummyEncode_one_of_k nominalExample "cat" 1 ["A", "B"] rfl rfl (by decide)).1,
   (dummyEncode_one_of_k nominalExample "cat" 1 ["A", "B"] rfl rfl (by decide)).2.2.2.1⟩

end ArffUtils
